import Mathlib

/-!
Shallow embedding of the `dynamodblocal` Go package
(dynamodb.go and dynamodb_local_endpoint_resolver.go).

Go functions returning `(T, error)` are embedded as `T × Option GoError`
(the Go convention: the second component is `none` exactly when the Go
error is `nil`).  The external `testcontainers` and AWS-SDK layers are
not part of this repository; their observable behaviour, where a claim
needs it, is modelled from the spec and marked as such in doc comments.
-/

namespace DynamodbLocal

/-- Errors surfaced through Go's `error` interface.  `notRunning` is the
error the container-orchestration layer returns when a port mapping is
queried on a stopped container; `canceled` is a context
cancellation/deadline error; `other` covers the remaining external
failures (image pull, config loading, startup, ...). -/
inductive GoError where
  | notRunning
  | canceled
  | other (msg : String)
deriving DecidableEq, Repr

/-- Model of Go's `context.Context`: the only observable attribute used
here is whether the context has been cancelled or its deadline has
expired. -/
structure Context where
  cancelled : Bool
deriving DecidableEq, Repr

/-- `context.Background()`: never cancelled. -/
def Context.background : Context := ⟨false⟩

/-- `const image = "amazon/dynamodb-local:2.2.1"` (dynamodb.go). -/
def image : String := "amazon/dynamodb-local:2.2.1"

/-- `const port = nat.Port("8000/tcp")` (dynamodb.go). -/
def port : String := "8000/tcp"

/-- `const containerName = "dynamodb_local"` (dynamodb.go). -/
def containerName : String := "dynamodb_local"

/-- Model of `dynamodb.EndpointParameters` from the AWS SDK: the
default endpoint parameters of an outgoing request. -/
structure EndpointParameters where
  Region : Option String
  UseDualStack : Option Bool
  UseFIPS : Option Bool
  Endpoint : Option String
deriving DecidableEq, Repr

/-- Model of Go's `url.URL` restricted to the fields this package sets;
the remaining fields stay at their zero values. -/
structure URL where
  Scheme : String := ""
  Host : String := ""
  Path : String := ""
deriving DecidableEq, Repr

/-- Model of `smithyendpoints.Endpoint`. -/
structure Endpoint where
  URI : URL
deriving DecidableEq, Repr

/-- `type DynamoDBLocalResolver struct { hostAndPort string }`
(dynamodb_local_endpoint_resolver.go). -/
structure DynamoDBLocalResolver where
  hostAndPort : String
deriving DecidableEq, Repr

/-- `func (r *DynamoDBLocalResolver) ResolveEndpoint(ctx, params)
(smithyendpoints.Endpoint, error)` (dynamodb_local_endpoint_resolver.go
lines 15-20): returns the fixed endpoint built from the stored
host:port and the "http" scheme, with a nil error. -/
def ResolveEndpoint (r : DynamoDBLocalResolver) (ctx : Context)
    (params : EndpointParameters) : Endpoint × Option GoError :=
  ({ URI := { Host := r.hostAndPort, Scheme := "http" } }, none)

/-- The readiness wait strategy of a container request;
`wait.ForListeningPort` waits until the given port accepts TCP
connections. -/
inductive WaitStrategy where
  | forListeningPort (port : String)
deriving DecidableEq, Repr

/-- Model of `testcontainers.GenericContainerRequest` (with its embedded
`ContainerRequest` flattened), restricted to the fields this package
reads or writes. -/
structure GenericContainerRequest where
  Image : String
  ExposedPorts : List String
  WaitingFor : WaitStrategy
  Cmd : List String
  Name : String
  Reuse : Bool
  Started : Bool
deriving DecidableEq, Repr

/-- `testcontainers.CustomizeRequestOption`: a mutation of the launch
request, embedded as a pure function. -/
def CustomizeRequestOption : Type :=
  GenericContainerRequest → GenericContainerRequest

/-- `func WithSharedDB() testcontainers.CustomizeRequestOption`
(dynamodb.go lines 90-101): if flags already exist, append `-sharedDb`;
otherwise initialize the base invocation `-jar DynamoDBLocal.jar`
followed by `-sharedDb`; in both cases set the fixed container name
and mark the request reusable. -/
def WithSharedDB : CustomizeRequestOption := fun req =>
  if req.Cmd.length > 0 then
    { req with Cmd := req.Cmd ++ ["-sharedDb"],
               Name := containerName, Reuse := true }
  else
    { req with Cmd := req.Cmd ++ ["-jar", "DynamoDBLocal.jar", "-sharedDb"],
               Name := containerName, Reuse := true }

/-- `func WithTelemetryDisabled() testcontainers.CustomizeRequestOption`
(dynamodb.go lines 104-114): if other flags exist, append
`-disableTelemetry`; otherwise initialize the base invocation first. -/
def WithTelemetryDisabled : CustomizeRequestOption := fun req =>
  if req.Cmd.length > 0 then
    { req with Cmd := req.Cmd ++ ["-disableTelemetry"] }
  else
    { req with Cmd := req.Cmd ++ ["-jar", "DynamoDBLocal.jar", "-disableTelemetry"] }

/-- The loop `for _, opt := range opts { opt.Customize(&genericContainerReq) }`
(dynamodb.go lines 40-42): options applied in the order given. -/
def applyOptions (opts : List CustomizeRequestOption)
    (req : GenericContainerRequest) : GenericContainerRequest :=
  opts.foldl (fun r o => o r) req

/-- Observable state of the underlying container process, as exposed by
the container-orchestration layer: whether it is running, and the host
and mapped external port of the exposed port `8000/tcp`. -/
structure ContainerState where
  running : Bool
  host : String
  mappedPort : String
deriving DecidableEq, Repr

/-- `type DynamodbLocalContainer struct { testcontainers.Container }`
(dynamodb.go lines 17-19): the handle wraps the underlying container. -/
structure DynamodbLocalContainer where
  state : ContainerState
deriving DecidableEq, Repr

/-- Modelled from the spec: `testcontainers` `Container.MappedPort` is
not part of this repository.  Per the spec, querying the current port
mapping "fails with a NotRunningError if the container is stopped", and
blocking operations abort with a cancellation error on a cancelled
context; otherwise it returns the current mapped external port. -/
def MappedPort (c : ContainerState) (ctx : Context) (p : String) :
    String × Option GoError :=
  if ctx.cancelled then ("", some GoError.canceled)
  else if c.running then (c.mappedPort, none)
  else ("", some GoError.notRunning)

/-- Modelled from the spec: `testcontainers` `Container.Host` is not
part of this repository.  It returns the host of the container's
connection target, aborting on a cancelled context. -/
def Host (c : ContainerState) (ctx : Context) : String × Option GoError :=
  if ctx.cancelled then ("", some GoError.canceled)
  else (c.host, none)

/-- `func (c *DynamodbLocalContainer) ConnectionString(ctx) (string, error)`
(dynamodb.go lines 55-68): query the mapped port, then the host, and
return `"<host>:<port>"`; each query's error is returned as-is with the
empty string. -/
def ConnectionString (c : DynamodbLocalContainer) (ctx : Context) :
    String × Option GoError :=
  match MappedPort c.state ctx port with
  | (_, some e) => ("", some e)
  | (mappedPort, none) =>
    match Host c.state ctx with
    | (_, some e) => ("", some e)
    | (hostIP, none) => (hostIP ++ ":" ++ mappedPort, none)

/-- `credentials.StaticCredentialsProvider` value fields used in
dynamodb.go lines 76-81. -/
structure Credentials where
  AccessKeyID : String
  SecretAccessKey : String
deriving DecidableEq, Repr

/-- Model of `aws.Config` restricted to what this package configures. -/
structure AWSConfig where
  credentials : Credentials
deriving DecidableEq, Repr

/-- Modelled from the spec: `config.LoadDefaultConfig` is AWS-SDK code,
not part of this repository.  It can fail for external reasons (the
`loadErr` parameter is that external outcome) and aborts on a cancelled
context; on success the returned config carries the static credentials
passed via the credentials-provider option. -/
def LoadDefaultConfig (ctx : Context) (creds : Credentials)
    (loadErr : Option GoError) : AWSConfig × Option GoError :=
  if ctx.cancelled then ({ credentials := ⟨"", ""⟩ }, some GoError.canceled)
  else
    match loadErr with
    | some e => ({ credentials := ⟨"", ""⟩ }, some e)
    | none => ({ credentials := creds }, none)

/-- Model of `*dynamodb.Client` as configured by this package: the
loaded config plus the installed endpoint resolver override. -/
structure DynamoDBClient where
  config : AWSConfig
  resolver : DynamoDBLocalResolver
deriving DecidableEq, Repr

/-- `dynamodb.NewFromConfig(cfg, dynamodb.WithEndpointResolverV2(...))`. -/
def NewFromConfig (cfg : AWSConfig) (r : DynamoDBLocalResolver) :
    DynamoDBClient :=
  ⟨cfg, r⟩

/-- `func (c *DynamodbLocalContainer) GetDynamoDBClient(ctx)
(*dynamodb.Client, error)` (dynamodb.go lines 70-87): resolves the
connection string and loads the default config, passing
`context.Background()` (not the caller's `ctx`) to both; each error is
returned as-is with a nil client; on success returns the client built
from the config and a resolver holding the connection string. -/
def GetDynamoDBClient (c : DynamodbLocalContainer) (ctx : Context)
    (loadErr : Option GoError) : Option DynamoDBClient × Option GoError :=
  match ConnectionString c Context.background with
  | (_, some e) => (none, some e)
  | (hostAndPort, none) =>
    match LoadDefaultConfig Context.background
        ⟨"DUMMYIDEXAMPLE", "DUMMYEXAMPLEKEY"⟩ loadErr with
    | (_, some e) => (none, some e)
    | (cfg, none) => (some (NewFromConfig cfg ⟨hostAndPort⟩), none)

/-- The base request built by `RunContainer` before options are applied
(dynamodb.go lines 29-38): fixed image, one exposed port, readiness
wait on that port, `Started: true`, and zero values elsewhere. -/
def baseGenericRequest : GenericContainerRequest :=
  { Image := image
    ExposedPorts := [port]
    WaitingFor := WaitStrategy.forListeningPort port
    Cmd := []
    Name := ""
    Reuse := false
    Started := true }

/-- `func RunContainer(ctx, opts...) (*DynamodbLocalContainer, error)`
(dynamodb.go lines 28-52): build the base request, apply each option in
order, start the container through `testcontainers.GenericContainer`
(external; passed here as the `genericContainer` parameter), propagate
its error with a nil handle, and wrap the started container on
success. -/
def RunContainer (ctx : Context)
    (genericContainer : Context → GenericContainerRequest →
      ContainerState × Option GoError)
    (opts : List CustomizeRequestOption) :
    Option DynamodbLocalContainer × Option GoError :=
  let genericContainerReq := applyOptions opts baseGenericRequest
  match genericContainer ctx genericContainerReq with
  | (_, some e) => (none, some e)
  | (container, none) => (some ⟨container⟩, none)

/-- The launch options this package defines. -/
def IsFixtureOption (o : CustomizeRequestOption) : Prop :=
  o = WithSharedDB ∨ o = WithTelemetryDisabled

theorem withSharedDB_cmd (req : GenericContainerRequest) :
    (WithSharedDB req).Cmd
      = req.Cmd ++ (if req.Cmd.length > 0 then ["-sharedDb"]
                    else ["-jar", "DynamoDBLocal.jar", "-sharedDb"]) := by
  by_cases h : req.Cmd.length > 0 <;> simp [WithSharedDB, h]

theorem withTelemetryDisabled_cmd (req : GenericContainerRequest) :
    (WithTelemetryDisabled req).Cmd
      = req.Cmd ++ (if req.Cmd.length > 0 then ["-disableTelemetry"]
                    else ["-jar", "DynamoDBLocal.jar", "-disableTelemetry"]) := by
  by_cases h : req.Cmd.length > 0 <;> simp [WithTelemetryDisabled, h]

theorem withSharedDB_name_reuse (req : GenericContainerRequest) :
    (WithSharedDB req).Name = containerName ∧ (WithSharedDB req).Reuse = true := by
  by_cases h : req.Cmd.length > 0 <;> simp [WithSharedDB, h]

theorem withTelemetryDisabled_name_reuse (req : GenericContainerRequest) :
    (WithTelemetryDisabled req).Name = req.Name
  ∧ (WithTelemetryDisabled req).Reuse = req.Reuse := by
  by_cases h : req.Cmd.length > 0 <;> simp [WithTelemetryDisabled, h]

theorem fixtureOption_extends (o : CustomizeRequestOption)
    (ho : IsFixtureOption o) (req : GenericContainerRequest) :
    ∃ t, (o req).Cmd = req.Cmd ++ t := by
  rcases ho with rfl | rfl
  · exact ⟨_, withSharedDB_cmd req⟩
  · exact ⟨_, withTelemetryDisabled_cmd req⟩

theorem applyOptions_extends (opts : List CustomizeRequestOption) :
    (∀ o ∈ opts, IsFixtureOption o) →
    ∀ req : GenericContainerRequest,
      ∃ t, (applyOptions opts req).Cmd = req.Cmd ++ t := by
  induction opts with
  | nil => exact fun _ req => ⟨[], (List.append_nil _).symm⟩
  | cons o os ih =>
    intro h req
    have ho : IsFixtureOption o := h o (List.mem_cons_self o os)
    have hos : ∀ o2 ∈ os, IsFixtureOption o2 :=
      fun o2 h2 => h o2 (List.mem_cons_of_mem o h2)
    obtain ⟨t1, h1⟩ := fixtureOption_extends o ho req
    obtain ⟨t2, h2⟩ := ih hos (o req)
    refine ⟨t1 ++ t2, ?_⟩
    have hstep : applyOptions (o :: os) req = applyOptions os (o req) := rfl
    rw [hstep, h2, h1, List.append_assoc]

/-- C2: applying the same option twice is not idempotent: the flag
appears twice (duplicates, not a merge by key), and each application
appends its flag after the flags already present, preserving the order
of application. -/
theorem double_application_duplicates_flags (req : GenericContainerRequest) :
    (WithSharedDB (WithSharedDB req)).Cmd.count "-sharedDb"
      = req.Cmd.count "-sharedDb" + 2
  ∧ (WithTelemetryDisabled (WithTelemetryDisabled req)).Cmd.count "-disableTelemetry"
      = req.Cmd.count "-disableTelemetry" + 2
  ∧ (WithSharedDB (WithSharedDB req)).Cmd = (WithSharedDB req).Cmd ++ ["-sharedDb"]
  ∧ (WithTelemetryDisabled (WithTelemetryDisabled req)).Cmd
      = (WithTelemetryDisabled req).Cmd ++ ["-disableTelemetry"] := by
  have hs : ((WithSharedDB req).Cmd).length > 0 := by
    by_cases h : req.Cmd.length > 0 <;> simp [withSharedDB_cmd, h]
  have ht : ((WithTelemetryDisabled req).Cmd).length > 0 := by
    by_cases h : req.Cmd.length > 0 <;> simp [withTelemetryDisabled_cmd, h]
  refine ⟨?_, ?_, ?_, ?_⟩
  · rw [withSharedDB_cmd, if_pos hs, withSharedDB_cmd]
    by_cases h : req.Cmd.length > 0 <;> simp [h, List.count_append]
  · rw [withTelemetryDisabled_cmd, if_pos ht, withTelemetryDisabled_cmd]
    by_cases h : req.Cmd.length > 0 <;> simp [h, List.count_append]
  · rw [withSharedDB_cmd (WithSharedDB req), if_pos hs]
  · rw [withTelemetryDisabled_cmd (WithTelemetryDisabled req), if_pos ht]

/-- C3: each option initializes the base command invocation
`-jar DynamoDBLocal.jar` before its own flag when the Cmd list is
empty, and appends only its own flag to a non-empty Cmd list without
overwriting any existing element. -/
theorem options_initialize_or_append (req : GenericContainerRequest) :
    (WithSharedDB req).Cmd
      = (if req.Cmd.length > 0 then req.Cmd ++ ["-sharedDb"]
         else ["-jar", "DynamoDBLocal.jar", "-sharedDb"])
  ∧ (WithTelemetryDisabled req).Cmd
      = (if req.Cmd.length > 0 then req.Cmd ++ ["-disableTelemetry"]
         else ["-jar", "DynamoDBLocal.jar", "-disableTelemetry"]) := by
  by_cases h : req.Cmd.length > 0
  · simp [withSharedDB_cmd, withTelemetryDisabled_cmd, h]
  · have hnil : req.Cmd = [] := List.length_eq_zero.mp (by omega)
    simp [withSharedDB_cmd, withTelemetryDisabled_cmd, h, hnil]

/-- C4: applying `WithSharedDB` and `WithTelemetryDisabled` in either
order yields the same multiset of Cmd flags, the same Name and the same
Reuse value; only the relative order of `-sharedDb` and
`-disableTelemetry` reflects the application order. -/
theorem options_commute_up_to_flag_order (req : GenericContainerRequest) :
    List.Perm (WithTelemetryDisabled (WithSharedDB req)).Cmd
      (WithSharedDB (WithTelemetryDisabled req)).Cmd
  ∧ (WithTelemetryDisabled (WithSharedDB req)).Name
      = (WithSharedDB (WithTelemetryDisabled req)).Name
  ∧ (WithTelemetryDisabled (WithSharedDB req)).Reuse
      = (WithSharedDB (WithTelemetryDisabled req)).Reuse
  ∧ (WithTelemetryDisabled (WithSharedDB req)).Cmd
      = (if req.Cmd.length > 0 then req.Cmd else ["-jar", "DynamoDBLocal.jar"])
        ++ ["-sharedDb", "-disableTelemetry"]
  ∧ (WithSharedDB (WithTelemetryDisabled req)).Cmd
      = (if req.Cmd.length > 0 then req.Cmd else ["-jar", "DynamoDBLocal.jar"])
        ++ ["-disableTelemetry", "-sharedDb"] := by
  have hs : ((WithSharedDB req).Cmd).length > 0 := by
    by_cases h : req.Cmd.length > 0 <;> simp [withSharedDB_cmd, h]
  have ht : ((WithTelemetryDisabled req).Cmd).length > 0 := by
    by_cases h : req.Cmd.length > 0 <;> simp [withTelemetryDisabled_cmd, h]
  have h1 : (WithTelemetryDisabled (WithSharedDB req)).Cmd
      = (if req.Cmd.length > 0 then req.Cmd else ["-jar", "DynamoDBLocal.jar"])
        ++ ["-sharedDb", "-disableTelemetry"] := by
    rw [withTelemetryDisabled_cmd, if_pos hs, withSharedDB_cmd]
    by_cases h : req.Cmd.length > 0
    · simp [h]
    · have hnil : req.Cmd = [] := List.length_eq_zero.mp (by omega)
      simp [h, hnil]
  have h2 : (WithSharedDB (WithTelemetryDisabled req)).Cmd
      = (if req.Cmd.length > 0 then req.Cmd else ["-jar", "DynamoDBLocal.jar"])
        ++ ["-disableTelemetry", "-sharedDb"] := by
    rw [withSharedDB_cmd, if_pos ht, withTelemetryDisabled_cmd]
    by_cases h : req.Cmd.length > 0
    · simp [h]
    · have hnil : req.Cmd = [] := List.length_eq_zero.mp (by omega)
      simp [h, hnil]
  refine ⟨?_, ?_, ?_, h1, h2⟩
  · rw [h1, h2]
    exact List.Perm.append_left _ (List.Perm.swap "-disableTelemetry" "-sharedDb" [])
  · rw [(withTelemetryDisabled_name_reuse (WithSharedDB req)).1,
        (withSharedDB_name_reuse (WithTelemetryDisabled req)).1,
        (withSharedDB_name_reuse req).1]
  · rw [(withTelemetryDisabled_name_reuse (WithSharedDB req)).2,
        (withSharedDB_name_reuse (WithTelemetryDisabled req)).2,
        (withSharedDB_name_reuse req).2]

/-- C5: `WithSharedDB` appends `-sharedDb` to the Cmd flag list (after
initializing the base invocation when the list is empty), sets the
request's Name to the fixed container name `dynamodb_local`, and sets
Reuse to true. -/
theorem withSharedDB_sets_flag_name_reuse (req : GenericContainerRequest) :
    (WithSharedDB req).Cmd
      = req.Cmd ++ (if req.Cmd.length > 0 then ["-sharedDb"]
                    else ["-jar", "DynamoDBLocal.jar", "-sharedDb"])
  ∧ (WithSharedDB req).Cmd.getLast? = some "-sharedDb"
  ∧ (WithSharedDB req).Name = "dynamodb_local"
  ∧ (WithSharedDB req).Reuse = true := by
  refine ⟨withSharedDB_cmd req, ?_, (withSharedDB_name_reuse req).1, (withSharedDB_name_reuse req).2⟩
  by_cases h : req.Cmd.length > 0 <;> simp [withSharedDB_cmd, h]

/-- C6: no option application removes flags: for every request and
every sequence of the package's options, the Cmd list before is an
initial segment of the Cmd list after — every previously present flag
is still present afterwards. -/
theorem no_option_removes_flags (req : GenericContainerRequest)
    (opts : List CustomizeRequestOption)
    (h : ∀ o ∈ opts, IsFixtureOption o) :
    req.Cmd <+: (WithSharedDB req).Cmd
  ∧ req.Cmd <+: (WithTelemetryDisabled req).Cmd
  ∧ req.Cmd <+: (applyOptions opts req).Cmd := by
  obtain ⟨t, hfold⟩ := applyOptions_extends opts h req
  exact ⟨⟨_, (withSharedDB_cmd req).symm⟩,
         ⟨_, (withTelemetryDisabled_cmd req).symm⟩,
         ⟨t, hfold.symm⟩⟩

/-- Witness for C6 at a concrete request and option sequence. -/
theorem no_option_removes_flags_witness :
    baseGenericRequest.Cmd <+: (WithSharedDB baseGenericRequest).Cmd
  ∧ baseGenericRequest.Cmd <+: (WithTelemetryDisabled baseGenericRequest).Cmd
  ∧ baseGenericRequest.Cmd
      <+: (applyOptions [WithSharedDB, WithTelemetryDisabled] baseGenericRequest).Cmd :=
  no_option_removes_flags baseGenericRequest [WithSharedDB, WithTelemetryDisabled]
    (by intro o ho
        rcases List.mem_cons.mp ho with rfl | ho2
        · exact Or.inl rfl
        · rcases List.mem_cons.mp ho2 with rfl | ho3
          · exact Or.inr rfl
          · exact absurd ho3 (List.not_mem_nil o))

/-- C1: For every stored host:port string and every input context and
endpoint-parameters value, `ResolveEndpoint` ignores the input
parameters and returns an endpoint whose URI has Host equal to the
stored host:port string and Scheme `"http"`, with a nil error; the
result depends only on the stored host:port string. -/
theorem resolveEndpoint_fixed_and_deterministic
    (r : DynamoDBLocalResolver) (ctx : Context) (params : EndpointParameters) :
    (ResolveEndpoint r ctx params).fst.URI.Host = r.hostAndPort
  ∧ (ResolveEndpoint r ctx params).fst.URI.Scheme = "http"
  ∧ (ResolveEndpoint r ctx params).snd = none
  ∧ (∀ ctx2 params2, ResolveEndpoint r ctx2 params2 = ResolveEndpoint r ctx params) :=
  ⟨rfl, rfl, rfl, fun _ _ => rfl⟩

theorem connectionString_running (c : DynamodbLocalContainer) (ctx : Context)
    (hr : c.state.running = true) (hc : ctx.cancelled = false) :
    ConnectionString c ctx = (c.state.host ++ ":" ++ c.state.mappedPort, none) := by
  simp [ConnectionString, MappedPort, Host, hc, hr]

theorem connectionString_stopped (c : DynamodbLocalContainer) (ctx : Context)
    (hr : c.state.running = false) (hc : ctx.cancelled = false) :
    ConnectionString c ctx = ("", some GoError.notRunning) := by
  simp [ConnectionString, MappedPort, hc, hr]

/-- C8: `ConnectionString` queries the mapped host and port of the
exposed port `8000/tcp`; when both queries succeed it returns
`"<host>:<port>"` built from the query results with a nil error; on a
stopped container (queried with a live context) it fails with the
port-mapping query's NotRunningError, returning the empty string and
that error unchanged. -/
theorem connectionString_queries_host_and_port (c : DynamodbLocalContainer)
    (ctx : Context) :
    ((MappedPort c.state ctx port).snd = none → (Host c.state ctx).snd = none →
       ConnectionString c ctx
         = ((Host c.state ctx).fst ++ ":" ++ (MappedPort c.state ctx port).fst, none))
  ∧ (c.state.running = false → ctx.cancelled = false →
       ConnectionString c ctx = ("", some GoError.notRunning)
     ∧ (MappedPort c.state ctx port).snd = some GoError.notRunning) := by
  constructor
  · intro h1 h2
    by_cases hc : ctx.cancelled = true
    · simp [MappedPort, hc] at h1
    · simp only [Bool.not_eq_true] at hc
      by_cases hr : c.state.running = true
      · rw [connectionString_running c ctx hr hc]
        simp [MappedPort, Host, hc, hr]
      · simp only [Bool.not_eq_true] at hr
        simp [MappedPort, hc, hr] at h1
  · intro hr hc
    exact ⟨connectionString_stopped c ctx hr hc, by simp [MappedPort, hc, hr]⟩

/-- Witness for C8 at a running and a stopped concrete container. -/
theorem connectionString_queries_host_and_port_witness :
    ConnectionString ⟨⟨true, "localhost", "32768"⟩⟩ Context.background
      = ((Host ⟨true, "localhost", "32768"⟩ Context.background).fst ++ ":"
          ++ (MappedPort ⟨true, "localhost", "32768"⟩ Context.background port).fst, none)
  ∧ (ConnectionString ⟨⟨false, "localhost", "32768"⟩⟩ Context.background
      = ("", some GoError.notRunning)
     ∧ (MappedPort ⟨false, "localhost", "32768"⟩ Context.background port).snd
         = some GoError.notRunning) :=
  ⟨(connectionString_queries_host_and_port ⟨⟨true, "localhost", "32768"⟩⟩
      Context.background).1 rfl rfl,
   (connectionString_queries_host_and_port ⟨⟨false, "localhost", "32768"⟩⟩
      Context.background).2 rfl rfl⟩

/-- C7: when the container is not running, `GetDynamoDBClient` returns
a nil client together with exactly the error `ConnectionString`
produced, propagated unmodified (here the orchestration layer's
NotRunningError). -/
theorem getClient_propagates_connectionString_error (c : DynamodbLocalContainer)
    (ctx : Context) (loadErr : Option GoError)
    (h : c.state.running = false) :
    GetDynamoDBClient c ctx loadErr = (none, (ConnectionString c Context.background).snd)
  ∧ (ConnectionString c Context.background).snd = some GoError.notRunning := by
  have hcs := connectionString_stopped c Context.background h rfl
  exact ⟨by simp [GetDynamoDBClient, hcs], by rw [hcs]⟩

/-- Witness for C7 at a concrete stopped container. -/
theorem getClient_propagates_connectionString_error_witness :
    GetDynamoDBClient ⟨⟨false, "localhost", "32768"⟩⟩ Context.background none
      = (none, (ConnectionString ⟨⟨false, "localhost", "32768"⟩⟩ Context.background).snd)
  ∧ (ConnectionString ⟨⟨false, "localhost", "32768"⟩⟩ Context.background).snd
      = some GoError.notRunning :=
  getClient_propagates_connectionString_error ⟨⟨false, "localhost", "32768"⟩⟩
    Context.background none rfl

/-- C9: `RunContainer` starts from a base request with the fixed image
`amazon/dynamodb-local:2.2.1`, exactly one exposed port `8000/tcp`, and
a readiness wait on that port; it applies each supplied option in order
to that request before starting; it returns a handle wrapping the
started container on success, and a nil handle with the startup error
on failure. -/
theorem runContainer_base_options_and_result (ctx : Context)
    (genericContainer : Context → GenericContainerRequest →
      ContainerState × Option GoError)
    (opts : List CustomizeRequestOption) :
    baseGenericRequest.Image = "amazon/dynamodb-local:2.2.1"
  ∧ baseGenericRequest.ExposedPorts = ["8000/tcp"]
  ∧ baseGenericRequest.WaitingFor = WaitStrategy.forListeningPort "8000/tcp"
  ∧ (∀ o : CustomizeRequestOption,
       applyOptions (opts ++ [o]) baseGenericRequest
         = o (applyOptions opts baseGenericRequest))
  ∧ (∀ e, (genericContainer ctx (applyOptions opts baseGenericRequest)).snd = some e →
       RunContainer ctx genericContainer opts = (none, some e))
  ∧ ((genericContainer ctx (applyOptions opts baseGenericRequest)).snd = none →
       RunContainer ctx genericContainer opts
         = (some ⟨(genericContainer ctx (applyOptions opts baseGenericRequest)).fst⟩, none)) := by
  refine ⟨rfl, rfl, rfl, ?_, ?_, ?_⟩
  · intro o
    simp [applyOptions, List.foldl_append]
  · intro e he
    rcases hgc : genericContainer ctx (applyOptions opts baseGenericRequest) with ⟨cs, err⟩
    rw [hgc] at he
    simp only at he
    simp [RunContainer, hgc, he]
  · intro hnone
    rcases hgc : genericContainer ctx (applyOptions opts baseGenericRequest) with ⟨cs, err⟩
    rw [hgc] at hnone
    simp only at hnone
    simp [RunContainer, hgc, hnone]

/-- A concrete successful start outcome of the external
`testcontainers.GenericContainer` call, for the C9 witness. -/
def gcSuccess : Context → GenericContainerRequest → ContainerState × Option GoError :=
  fun _ _ => (⟨true, "localhost", "32768"⟩, none)

/-- A concrete failing start outcome of the external
`testcontainers.GenericContainer` call, for the C9 witness. -/
def gcFailure : Context → GenericContainerRequest → ContainerState × Option GoError :=
  fun _ _ => (⟨false, "", ""⟩, some (GoError.other "startup failure"))

/-- Witness for C9 at a concrete success and a concrete failure of the
external start call. -/
theorem runContainer_base_options_and_result_witness :
    RunContainer Context.background gcSuccess []
      = (some ⟨⟨true, "localhost", "32768"⟩⟩, none)
  ∧ RunContainer Context.background gcFailure [WithSharedDB]
      = (none, some (GoError.other "startup failure")) :=
  ⟨(runContainer_base_options_and_result Context.background gcSuccess []).2.2.2.2.2 rfl,
   (runContainer_base_options_and_result Context.background gcFailure
      [WithSharedDB]).2.2.2.2.1 (GoError.other "startup failure") rfl⟩

/-- C10: `GetDynamoDBClient` ignores its context argument — it passes
`context.Background()` to both the connection-string resolution and the
config loading — so any two caller contexts (including a cancelled or
expired one) produce identical results. -/
theorem getClient_ignores_caller_context (c : DynamodbLocalContainer)
    (ctx1 ctx2 : Context) (loadErr : Option GoError) :
    GetDynamoDBClient c ctx1 loadErr = GetDynamoDBClient c ctx2 loadErr
  ∧ GetDynamoDBClient c ⟨true⟩ loadErr = GetDynamoDBClient c Context.background loadErr :=
  ⟨rfl, rfl⟩

end DynamodbLocal
